import Mathlib

/-!
Shallow embedding of the `xdirs` crate (src/lib.rs, src/nix.rs, src/macos.rs,
src/windows.rs).

Paths (`PathBuf`) are modelled as lists of segments; each `PathBuf::join`
call appends exactly its (verbatim) string argument as one segment.  The
external primitives (dirs-next functions and the Windows known-folder
lookup) are collected in an `Env` record; every backend function is a pure
function of that record, mirroring the Rust source line by line.
-/

namespace Xdirs

/-- A filesystem path, as a list of the strings passed to successive
`PathBuf::join` calls (the first element being the initial base). -/
abbrev FsPath := List String

/-- `PathBuf::join`: append one segment. -/
def joinPath (p : FsPath) (s : String) : FsPath := p ++ [s]

/-- The Windows known-folder identifiers used by `src/windows.rs`. -/
inductive FolderId where
  | ProgramFiles
  | ProgramFilesCommon
  | UserProgramFiles
  | Favorites
deriving DecidableEq, Repr

/-- The external primitives (dirs-next / dirs-sys-next): home directory,
the four XDG-or-platform base directories, the templates directory, and the
Windows known-folder lookup.  All are optional, as in the Rust API. -/
structure Env where
  home_dir : Option FsPath
  cache_dir : Option FsPath
  config_dir : Option FsPath
  data_dir : Option FsPath
  data_local_dir : Option FsPath
  template_dir : Option FsPath
  known_folder : FolderId → Option FsPath

namespace Nix

/- src/nix.rs -/

def D_FAVORITES : String := "favorites"

def D_LOGS : String := "logs"

def D_TEMPLATES : String := "templates"

def application_dir (_ : Env) : Option FsPath := none

def application_shared_dir (_ : Env) : Option FsPath := none

def user_application_dir (env : Env) : Option FsPath := application_dir env

def app_container_dir_for (_ : Env) (_ : String) : Option FsPath := none

def app_container_executable_dir_for (env : Env) (app : String) : Option FsPath :=
  app_container_dir_for env app

def user_app_container_dir_for (_ : Env) (_ : String) : Option FsPath := none

def user_app_container_executable_dir_for (env : Env) (app : String) : Option FsPath :=
  user_app_container_dir_for env app

def cache_dir_for (env : Env) (app : String) : Option FsPath :=
  env.cache_dir.map (fun path => joinPath path app)

def config_dir_for (env : Env) (app : String) : Option FsPath :=
  env.config_dir.map (fun path => joinPath path app)

def data_dir_for (env : Env) (app : String) : Option FsPath :=
  env.data_dir.map (fun path => joinPath path app)

def data_local_dir_for (env : Env) (app : String) : Option FsPath :=
  env.data_local_dir.map (fun path => joinPath path app)

def favorites_dir (_ : Env) : Option FsPath := none

def favorites_dir_for (env : Env) (app : String) : Option FsPath :=
  (data_local_dir_for env app).map (fun path => joinPath path D_FAVORITES)

def log_dir (_ : Env) : Option FsPath := none

def log_dir_for (env : Env) (app : String) : Option FsPath :=
  (data_local_dir_for env app).map (fun path => joinPath path D_LOGS)

def preference_dir (env : Env) : Option FsPath := env.config_dir

def preference_dir_for (env : Env) (app : String) : Option FsPath :=
  config_dir_for env app

/-- `pub use dirs_next::template_dir`: re-export of the primitive. -/
def template_dir (env : Env) : Option FsPath := env.template_dir

def template_dir_for (env : Env) (app : String) : Option FsPath :=
  (config_dir_for env app).map (fun d => joinPath d D_TEMPLATES)

end Nix

namespace MacOS

/- src/macos.rs -/

def application_dir (_ : Env) : Option FsPath := some ["/Applications"]

def application_shared_dir (_ : Env) : Option FsPath := some ["/Library/Frameworks"]

def user_application_dir (env : Env) : Option FsPath :=
  env.home_dir.map (fun path => joinPath path "Applications")

def app_container_dir_for (env : Env) (app : String) : Option FsPath :=
  (application_dir env).map (fun path => joinPath path (app ++ ".app"))

def app_container_executable_dir_for (env : Env) (app : String) : Option FsPath :=
  (app_container_dir_for env app).map (fun a => joinPath a "Contents/MacOS")

def user_app_container_dir_for (env : Env) (app : String) : Option FsPath :=
  (user_application_dir env).map (fun path => joinPath path (app ++ ".app"))

def user_app_container_executable_dir_for (env : Env) (app : String) : Option FsPath :=
  (user_app_container_dir_for env app).map (fun a => joinPath a "Contents/MacOS")

def cache_dir_for (env : Env) (app : String) : Option FsPath :=
  env.cache_dir.map (fun path => joinPath path app)

def config_dir_for (env : Env) (app : String) : Option FsPath :=
  env.config_dir.map (fun path => joinPath path app)

def data_dir_for (env : Env) (app : String) : Option FsPath :=
  env.data_dir.map (fun path => joinPath path app)

def data_local_dir_for (env : Env) (app : String) : Option FsPath :=
  env.data_local_dir.map (fun path => joinPath path app)

def favorites_dir (env : Env) : Option FsPath :=
  env.home_dir.map (fun h => joinPath h "Library/Favorites")

def favorites_dir_for (env : Env) (app : String) : Option FsPath :=
  (favorites_dir env).map (fun path => joinPath path app)

def log_dir (env : Env) : Option FsPath :=
  env.home_dir.map (fun h => joinPath h "Library/Logs")

def log_dir_for (env : Env) (app : String) : Option FsPath :=
  (log_dir env).map (fun path => joinPath path app)

def preference_dir (env : Env) : Option FsPath :=
  env.home_dir.map (fun h => joinPath h "Library/Preferences")

def preference_dir_for (env : Env) (app : String) : Option FsPath :=
  (preference_dir env).map (fun path => joinPath path app)

def template_dir (_ : Env) : Option FsPath := none

def template_dir_for (env : Env) (app : String) : Option FsPath :=
  (data_dir_for env app).map (fun d => joinPath d "Templates")

end MacOS

namespace Windows

/- src/windows.rs -/

def D_CACHE : String := "Cache"

def application_dir (env : Env) : Option FsPath :=
  env.known_folder FolderId.ProgramFiles

def application_shared_dir (env : Env) : Option FsPath :=
  env.known_folder FolderId.ProgramFilesCommon

def user_application_dir (env : Env) : Option FsPath :=
  env.known_folder FolderId.UserProgramFiles

def app_container_dir_for (_ : Env) (_ : String) : Option FsPath := none

def app_container_executable_dir_for (env : Env) (app : String) : Option FsPath :=
  app_container_dir_for env app

def user_app_container_dir_for (_ : Env) (_ : String) : Option FsPath := none

def user_app_container_executable_dir_for (env : Env) (app : String) : Option FsPath :=
  user_app_container_dir_for env app

def cache_dir_for (env : Env) (app : String) : Option FsPath :=
  env.cache_dir.map (fun path => joinPath (joinPath path app) D_CACHE)

def config_dir_for (env : Env) (app : String) : Option FsPath :=
  env.config_dir.map (fun path => joinPath path app)

def data_dir_for (env : Env) (app : String) : Option FsPath :=
  env.data_dir.map (fun path => joinPath path app)

def data_local_dir_for (env : Env) (app : String) : Option FsPath :=
  env.data_local_dir.map (fun path => joinPath path app)

def favorites_dir (env : Env) : Option FsPath :=
  env.known_folder FolderId.Favorites

def favorites_dir_for (env : Env) (app : String) : Option FsPath :=
  (favorites_dir env).map (fun path => joinPath path app)

def log_dir (env : Env) : Option FsPath :=
  env.data_local_dir.map (fun h => joinPath h "Logs")

def log_dir_for (env : Env) (app : String) : Option FsPath :=
  (log_dir env).map (fun path => joinPath path app)

def preference_dir (env : Env) : Option FsPath := env.config_dir

def preference_dir_for (env : Env) (app : String) : Option FsPath :=
  config_dir_for env app

/-- `pub use dirs_next::template_dir`: re-export of the primitive. -/
def template_dir (env : Env) : Option FsPath := env.template_dir

def template_dir_for (env : Env) (app : String) : Option FsPath :=
  (template_dir env).map (fun d => joinPath d app)

end Windows

/-- The active backend, selected by `cfg` in src/lib.rs at build time. -/
inductive Backend where
  | nix
  | macos
  | windows
deriving DecidableEq, Repr

/- src/lib.rs: the public facade.  Each function delegates, unchanged, to
the same-named function of the active backend; the four dirs-next re-exports
(`cache_dir`, `config_dir`, `data_dir`, `data_local_dir`) expose the
primitives themselves. -/

def cache_dir (_ : Backend) (env : Env) : Option FsPath := env.cache_dir

def config_dir (_ : Backend) (env : Env) : Option FsPath := env.config_dir

def data_dir (_ : Backend) (env : Env) : Option FsPath := env.data_dir

def data_local_dir (_ : Backend) (env : Env) : Option FsPath := env.data_local_dir

def application_dir (b : Backend) (env : Env) : Option FsPath :=
  match b with
  | .nix => Nix.application_dir env
  | .macos => MacOS.application_dir env
  | .windows => Windows.application_dir env

def application_shared_dir (b : Backend) (env : Env) : Option FsPath :=
  match b with
  | .nix => Nix.application_shared_dir env
  | .macos => MacOS.application_shared_dir env
  | .windows => Windows.application_shared_dir env

def user_application_dir (b : Backend) (env : Env) : Option FsPath :=
  match b with
  | .nix => Nix.user_application_dir env
  | .macos => MacOS.user_application_dir env
  | .windows => Windows.user_application_dir env

def app_container_dir_for (b : Backend) (env : Env) (app : String) : Option FsPath :=
  match b with
  | .nix => Nix.app_container_dir_for env app
  | .macos => MacOS.app_container_dir_for env app
  | .windows => Windows.app_container_dir_for env app

def app_container_executable_dir_for (b : Backend) (env : Env) (app : String) : Option FsPath :=
  match b with
  | .nix => Nix.app_container_executable_dir_for env app
  | .macos => MacOS.app_container_executable_dir_for env app
  | .windows => Windows.app_container_executable_dir_for env app

def user_app_container_dir_for (b : Backend) (env : Env) (app : String) : Option FsPath :=
  match b with
  | .nix => Nix.user_app_container_dir_for env app
  | .macos => MacOS.user_app_container_dir_for env app
  | .windows => Windows.user_app_container_dir_for env app

def user_app_container_executable_dir_for (b : Backend) (env : Env) (app : String) :
    Option FsPath :=
  match b with
  | .nix => Nix.user_app_container_executable_dir_for env app
  | .macos => MacOS.user_app_container_executable_dir_for env app
  | .windows => Windows.user_app_container_executable_dir_for env app

def cache_dir_for (b : Backend) (env : Env) (app : String) : Option FsPath :=
  match b with
  | .nix => Nix.cache_dir_for env app
  | .macos => MacOS.cache_dir_for env app
  | .windows => Windows.cache_dir_for env app

def config_dir_for (b : Backend) (env : Env) (app : String) : Option FsPath :=
  match b with
  | .nix => Nix.config_dir_for env app
  | .macos => MacOS.config_dir_for env app
  | .windows => Windows.config_dir_for env app

def data_dir_for (b : Backend) (env : Env) (app : String) : Option FsPath :=
  match b with
  | .nix => Nix.data_dir_for env app
  | .macos => MacOS.data_dir_for env app
  | .windows => Windows.data_dir_for env app

def data_local_dir_for (b : Backend) (env : Env) (app : String) : Option FsPath :=
  match b with
  | .nix => Nix.data_local_dir_for env app
  | .macos => MacOS.data_local_dir_for env app
  | .windows => Windows.data_local_dir_for env app

def favorites_dir (b : Backend) (env : Env) : Option FsPath :=
  match b with
  | .nix => Nix.favorites_dir env
  | .macos => MacOS.favorites_dir env
  | .windows => Windows.favorites_dir env

def favorites_dir_for (b : Backend) (env : Env) (app : String) : Option FsPath :=
  match b with
  | .nix => Nix.favorites_dir_for env app
  | .macos => MacOS.favorites_dir_for env app
  | .windows => Windows.favorites_dir_for env app

def log_dir (b : Backend) (env : Env) : Option FsPath :=
  match b with
  | .nix => Nix.log_dir env
  | .macos => MacOS.log_dir env
  | .windows => Windows.log_dir env

def log_dir_for (b : Backend) (env : Env) (app : String) : Option FsPath :=
  match b with
  | .nix => Nix.log_dir_for env app
  | .macos => MacOS.log_dir_for env app
  | .windows => Windows.log_dir_for env app

def preference_dir (b : Backend) (env : Env) : Option FsPath :=
  match b with
  | .nix => Nix.preference_dir env
  | .macos => MacOS.preference_dir env
  | .windows => Windows.preference_dir env

def preference_dir_for (b : Backend) (env : Env) (app : String) : Option FsPath :=
  match b with
  | .nix => Nix.preference_dir_for env app
  | .macos => MacOS.preference_dir_for env app
  | .windows => Windows.preference_dir_for env app

def template_dir (b : Backend) (env : Env) : Option FsPath :=
  match b with
  | .nix => Nix.template_dir env
  | .macos => MacOS.template_dir env
  | .windows => Windows.template_dir env

def template_dir_for (b : Backend) (env : Env) (app : String) : Option FsPath :=
  match b with
  | .nix => Nix.template_dir_for env app
  | .macos => MacOS.template_dir_for env app
  | .windows => Windows.template_dir_for env app

/-!
Kind-indexed views of the API, used to state the table-shaped spec
properties.  `DirKind` enumerates the per-application directory kinds; the
first eight ("standard" kinds) also have a generic variant function.
-/

/-- The directory kinds that have a per-application function. -/
inductive DirKind where
  | cache
  | config
  | data
  | dataLocal
  | favorites
  | log
  | preference
  | template
  | appContainer
  | appContainerExecutable
  | userAppContainer
  | userAppContainerExecutable
deriving DecidableEq, Repr

/-- The eight kinds with a same-named generic (no-argument) variant;
the four app-container kinds scope an application-install directory
instead. -/
def DirKind.standard : DirKind → Bool
  | .cache | .config | .data | .dataLocal | .favorites
  | .log | .preference | .template => true
  | _ => false

/-- The generic path corresponding to a kind: the same-named no-argument
facade function for the standard kinds, and the application-install
directory the container kinds scope. -/
def genericOf (b : Backend) (k : DirKind) (env : Env) : Option FsPath :=
  match k with
  | .cache => cache_dir b env
  | .config => config_dir b env
  | .data => data_dir b env
  | .dataLocal => data_local_dir b env
  | .favorites => favorites_dir b env
  | .log => log_dir b env
  | .preference => preference_dir b env
  | .template => template_dir b env
  | .appContainer => application_dir b env
  | .appContainerExecutable => application_dir b env
  | .userAppContainer => user_application_dir b env
  | .userAppContainerExecutable => user_application_dir b env

/-- The per-application facade function for a kind. -/
def perAppOf (b : Backend) (k : DirKind) (env : Env) (app : String) : Option FsPath :=
  match k with
  | .cache => cache_dir_for b env app
  | .config => config_dir_for b env app
  | .data => data_dir_for b env app
  | .dataLocal => data_local_dir_for b env app
  | .favorites => favorites_dir_for b env app
  | .log => log_dir_for b env app
  | .preference => preference_dir_for b env app
  | .template => template_dir_for b env app
  | .appContainer => app_container_dir_for b env app
  | .appContainerExecutable => app_container_executable_dir_for b env app
  | .userAppContainer => user_app_container_dir_for b env app
  | .userAppContainerExecutable => user_app_container_executable_dir_for b env app

/-- The underlying generic base that each per-app function reads, per
backend, following the call chain in the source down to the external
primitive (or fixed path).  Kinds whose per-app function is the constant
`None` on a backend read no base at all and are assigned `none`. -/
def baseOf (b : Backend) (k : DirKind) (env : Env) : Option FsPath :=
  match b, k with
  | .nix, .cache => env.cache_dir
  | .nix, .config => env.config_dir
  | .nix, .data => env.data_dir
  | .nix, .dataLocal => env.data_local_dir
  | .nix, .favorites => env.data_local_dir
  | .nix, .log => env.data_local_dir
  | .nix, .preference => env.config_dir
  | .nix, .template => env.config_dir
  | .nix, _ => none
  | .macos, .cache => env.cache_dir
  | .macos, .config => env.config_dir
  | .macos, .data => env.data_dir
  | .macos, .dataLocal => env.data_local_dir
  | .macos, .favorites => env.home_dir
  | .macos, .log => env.home_dir
  | .macos, .preference => env.home_dir
  | .macos, .template => env.data_dir
  | .macos, .appContainer => MacOS.application_dir env
  | .macos, .appContainerExecutable => MacOS.application_dir env
  | .macos, .userAppContainer => env.home_dir
  | .macos, .userAppContainerExecutable => env.home_dir
  | .windows, .cache => env.cache_dir
  | .windows, .config => env.config_dir
  | .windows, .data => env.data_dir
  | .windows, .dataLocal => env.data_local_dir
  | .windows, .favorites => env.known_folder FolderId.Favorites
  | .windows, .log => env.data_local_dir
  | .windows, .preference => env.config_dir
  | .windows, .template => env.template_dir
  | .windows, _ => none

/-- The segments a per-app function appends beneath its base (between the
base read by `baseOf` and the result), per backend.  The application name
appears verbatim as a whole segment everywhere except the four macOS
app-container kinds, whose segment is the name suffixed with ".app". -/
def appSegs (b : Backend) (k : DirKind) (app : String) : List String :=
  match b, k with
  | .nix, .favorites => [app, "favorites"]
  | .nix, .log => [app, "logs"]
  | .nix, .template => [app, "templates"]
  | .macos, .favorites => ["Library/Favorites", app]
  | .macos, .log => ["Library/Logs", app]
  | .macos, .preference => ["Library/Preferences", app]
  | .macos, .template => [app, "Templates"]
  | .macos, .appContainer => [app ++ ".app"]
  | .macos, .appContainerExecutable => [app ++ ".app", "Contents/MacOS"]
  | .macos, .userAppContainer => ["Applications", app ++ ".app"]
  | .macos, .userAppContainerExecutable => ["Applications", app ++ ".app", "Contents/MacOS"]
  | .windows, .cache => [app, "Cache"]
  | .windows, .log => ["Logs", app]
  | _, _ => [app]

/-!
Concrete environments, used for witnesses and counterexamples.
-/

/-- Every external primitive undefined. -/
def envNone : Env :=
  { home_dir := none
    cache_dir := none
    config_dir := none
    data_dir := none
    data_local_dir := none
    template_dir := none
    known_folder := fun _ => none }

/-- A POSIX environment where both the config base and the XDG templates
directory are defined (and unrelated). -/
def envT : Env :=
  { envNone with
    config_dir := some ["/home/alice/.config"]
    template_dir := some ["/home/alice/Templates"] }

/-- A POSIX environment with only the config base defined. -/
def envCfgOnly : Env :=
  { envNone with config_dir := some ["/home/alice/.config"] }

/-- A POSIX environment with only the XDG templates directory defined. -/
def envTplOnly : Env :=
  { envNone with template_dir := some ["/home/alice/Templates"] }

/-- A macOS environment whose dirs-next cache base has its standard value
`$HOME/Library/Caches`. -/
def envMac : Env :=
  { envNone with
    home_dir := some ["/Users/Alice"]
    cache_dir := some ["/Users/Alice", "Library/Caches"] }

/-!
A small call-trace model, used to state purity: a history of facade
calls evaluated against one external state.
-/

/-- One call to a public facade function, with its argument if any. -/
inductive Call where
  | applicationDir
  | applicationSharedDir
  | userApplicationDir
  | appContainerDirFor (app : String)
  | appContainerExecutableDirFor (app : String)
  | userAppContainerDirFor (app : String)
  | userAppContainerExecutableDirFor (app : String)
  | cacheDir
  | configDir
  | dataDir
  | dataLocalDir
  | cacheDirFor (app : String)
  | configDirFor (app : String)
  | dataDirFor (app : String)
  | dataLocalDirFor (app : String)
  | favoritesDir
  | favoritesDirFor (app : String)
  | logDir
  | logDirFor (app : String)
  | preferenceDir
  | preferenceDirFor (app : String)
  | templateDir
  | templateDirFor (app : String)
deriving DecidableEq, Repr

/-- Evaluate one facade call on the active backend. -/
def evalCall (b : Backend) (env : Env) : Call → Option FsPath
  | .applicationDir => application_dir b env
  | .applicationSharedDir => application_shared_dir b env
  | .userApplicationDir => user_application_dir b env
  | .appContainerDirFor app => app_container_dir_for b env app
  | .appContainerExecutableDirFor app => app_container_executable_dir_for b env app
  | .userAppContainerDirFor app => user_app_container_dir_for b env app
  | .userAppContainerExecutableDirFor app => user_app_container_executable_dir_for b env app
  | .cacheDir => cache_dir b env
  | .configDir => config_dir b env
  | .dataDir => data_dir b env
  | .dataLocalDir => data_local_dir b env
  | .cacheDirFor app => cache_dir_for b env app
  | .configDirFor app => config_dir_for b env app
  | .dataDirFor app => data_dir_for b env app
  | .dataLocalDirFor app => data_local_dir_for b env app
  | .favoritesDir => favorites_dir b env
  | .favoritesDirFor app => favorites_dir_for b env app
  | .logDir => log_dir b env
  | .logDirFor app => log_dir_for b env app
  | .preferenceDir => preference_dir b env
  | .preferenceDirFor app => preference_dir_for b env app
  | .templateDir => template_dir b env
  | .templateDirFor app => template_dir_for b env app

/-- Run a whole history of calls against a fixed external state, yielding
the result of each call in order. -/
def runCalls (b : Backend) (env : Env) (calls : List Call) : List (Option FsPath) :=
  calls.map (evalCall b env)

/-!
Theorems.
-/

attribute [simp] joinPath
  Nix.application_dir Nix.application_shared_dir Nix.user_application_dir
  Nix.app_container_dir_for Nix.app_container_executable_dir_for
  Nix.user_app_container_dir_for Nix.user_app_container_executable_dir_for
  Nix.cache_dir_for Nix.config_dir_for Nix.data_dir_for Nix.data_local_dir_for
  Nix.favorites_dir Nix.favorites_dir_for Nix.log_dir Nix.log_dir_for
  Nix.preference_dir Nix.preference_dir_for Nix.template_dir Nix.template_dir_for
  Nix.D_FAVORITES Nix.D_LOGS Nix.D_TEMPLATES
  MacOS.application_dir MacOS.application_shared_dir MacOS.user_application_dir
  MacOS.app_container_dir_for MacOS.app_container_executable_dir_for
  MacOS.user_app_container_dir_for MacOS.user_app_container_executable_dir_for
  MacOS.cache_dir_for MacOS.config_dir_for MacOS.data_dir_for MacOS.data_local_dir_for
  MacOS.favorites_dir MacOS.favorites_dir_for MacOS.log_dir MacOS.log_dir_for
  MacOS.preference_dir MacOS.preference_dir_for MacOS.template_dir MacOS.template_dir_for
  Windows.application_dir Windows.application_shared_dir Windows.user_application_dir
  Windows.app_container_dir_for Windows.app_container_executable_dir_for
  Windows.user_app_container_dir_for Windows.user_app_container_executable_dir_for
  Windows.cache_dir_for Windows.config_dir_for Windows.data_dir_for
  Windows.data_local_dir_for Windows.favorites_dir Windows.favorites_dir_for
  Windows.log_dir Windows.log_dir_for Windows.preference_dir Windows.preference_dir_for
  Windows.template_dir Windows.template_dir_for Windows.D_CACHE
  cache_dir config_dir data_dir data_local_dir
  application_dir application_shared_dir user_application_dir
  app_container_dir_for app_container_executable_dir_for
  user_app_container_dir_for user_app_container_executable_dir_for
  cache_dir_for config_dir_for data_dir_for data_local_dir_for
  favorites_dir favorites_dir_for log_dir log_dir_for
  preference_dir preference_dir_for template_dir template_dir_for
  genericOf perAppOf baseOf appSegs DirKind.standard evalCall runCalls

/-- If a per-app value is the `Option.map` of one extra joined segment over
a base that is resolved as `g`, the per-app value is `g` with that segment
appended. -/
theorem map_join_some {x : Option FsPath} {g p : FsPath} {s : String}
    (hg : x = some g) (hp : x.map (fun q => joinPath q s) = some p) :
    p = g ++ [s] := by
  subst hg
  simpa [joinPath, eq_comm] using hp

/-- Claim C1 (amended): on every backend, for every standard directory
kind whose generic and per-app paths are both defined, the per-app path is
the generic path with the application name appended as the final segment —
except the Windows Cache kind, which appends a further literal "Cache"
segment beneath the name, and the POSIX Template kind, whose per-app path
is instead the per-app Config path with a literal "templates" segment
appended (independent of the generic Template path). -/
theorem per_app_extends_generic (b : Backend) (k : DirKind) (env : Env) (app : String)
    (g p : FsPath) (hk : k.standard = true)
    (hg : genericOf b k env = some g) (hp : perAppOf b k env app = some p) :
    p = g ++ [app]
    ∨ (b = .windows ∧ k = .cache ∧ p = g ++ [app, "Cache"])
    ∨ (b = .nix ∧ k = .template
        ∧ ∃ c, env.config_dir = some c ∧ p = c ++ [app, "templates"]) := by
  cases b <;> cases k
  -- POSIX backend
  · exact Or.inl (map_join_some hg hp)
  · exact Or.inl (map_join_some hg hp)
  · exact Or.inl (map_join_some hg hp)
  · exact Or.inl (map_join_some hg hp)
  · simp at hg
  · simp at hg
  · exact Or.inl (map_join_some hg hp)
  · -- POSIX Template: the per-app path is built from the config base.
    rcases hcd : env.config_dir with _ | c
    · simp [hcd] at hp
    · refine Or.inr (Or.inr ⟨rfl, rfl, c, rfl, ?_⟩)
      simp [hcd, eq_comm] at hp
      simpa using hp
  · simp at hk
  · simp at hk
  · simp at hk
  · simp at hk
  -- macOS backend
  · exact Or.inl (map_join_some hg hp)
  · exact Or.inl (map_join_some hg hp)
  · exact Or.inl (map_join_some hg hp)
  · exact Or.inl (map_join_some hg hp)
  · exact Or.inl (map_join_some hg hp)
  · exact Or.inl (map_join_some hg hp)
  · exact Or.inl (map_join_some hg hp)
  · simp at hg
  · simp at hk
  · simp at hk
  · simp at hk
  · simp at hk
  -- Windows backend
  · -- Windows Cache: the extra literal "Cache" segment.
    refine Or.inr (Or.inl ⟨rfl, rfl, ?_⟩)
    simp only [genericOf, cache_dir] at hg
    simp [hg, eq_comm] at hp
    simpa using hp
  · exact Or.inl (map_join_some hg hp)
  · exact Or.inl (map_join_some hg hp)
  · exact Or.inl (map_join_some hg hp)
  · exact Or.inl (map_join_some hg hp)
  · exact Or.inl (map_join_some hg hp)
  · exact Or.inl (map_join_some hg hp)
  · exact Or.inl (map_join_some hg hp)
  · simp at hk
  · simp at hk
  · simp at hk
  · simp at hk

/-- Claim C1, original form, refuted: on the POSIX backend with a config
base and an XDG templates directory both defined, the per-app Template
path is not the generic Template path with the name appended. -/
theorem per_app_extends_generic_counterexample :
    DirKind.template.standard = true
    ∧ genericOf .nix .template envT = some ["/home/alice/Templates"]
    ∧ perAppOf .nix .template envT "MyApp"
        = some ["/home/alice/.config", "MyApp", "templates"]
    ∧ ["/home/alice/.config", "MyApp", "templates"]
        ≠ ["/home/alice/Templates"] ++ ["MyApp"] := by
  refine ⟨rfl, rfl, rfl, by decide⟩

/-- Claim C1 witness: a concrete instance of the amended statement, at the
POSIX Cache kind. -/
theorem per_app_extends_generic_witness :
    ["/home/alice/.config", "MyApp"] = ["/home/alice/.config"] ++ ["MyApp"]
    ∨ (Backend.nix = .windows ∧ DirKind.config = .cache
        ∧ ["/home/alice/.config", "MyApp"] = ["/home/alice/.config"] ++ ["MyApp", "Cache"])
    ∨ (Backend.nix = .nix ∧ DirKind.config = .template
        ∧ ∃ c, envCfgOnly.config_dir = some c
            ∧ ["/home/alice/.config", "MyApp"] = c ++ ["MyApp", "templates"]) :=
  per_app_extends_generic .nix .config envCfgOnly "MyApp"
    ["/home/alice/.config"] ["/home/alice/.config", "MyApp"] rfl rfl rfl

/-- Claim C2: on every backend, for every directory kind and application
name, if the underlying generic base read by the per-app function is
Undefined then the per-app result is Undefined — no partial path is built
from a missing base. -/
theorem undefined_base_propagates (b : Backend) (k : DirKind) (env : Env) (app : String)
    (h : baseOf b k env = none) : perAppOf b k env app = none := by
  cases b <;> cases k <;> simp_all

/-- Claim C2 witness: with no external primitive defined, the POSIX
favorites base is Undefined and so is the per-app favorites path. -/
theorem undefined_base_propagates_witness :
    perAppOf .nix .favorites envNone "MyApp" = none :=
  undefined_base_propagates .nix .favorites envNone "MyApp" rfl

/-- Claim C3, original form, refuted: the macOS app-container function
does not use the application name verbatim as a path segment of the
result — the segment is the name suffixed with ".app". -/
theorem name_verbatim_counterexample :
    MacOS.app_container_dir_for envNone "Chrome" = some ["/Applications", "Chrome.app"]
    ∧ "Chrome" ∉ (["/Applications", "Chrome.app"] : List String) :=
  ⟨rfl, by decide⟩

/-- Claim C3 (amended): every per-app function on every backend equals
`Option.map` over its underlying base of appending `appSegs` — a fixed
list of segments in which the application name appears verbatim as one
whole segment, unchanged and uninspected, except in the four macOS
app-container kinds where the segment is the name suffixed with ".app".
In particular, whenever the base is Resolved the result is Resolved, for
every name including the empty string and names containing separators. -/
theorem name_passed_through (b : Backend) (k : DirKind) (env : Env) (app : String) :
    perAppOf b k env app = (baseOf b k env).map (fun p => p ++ appSegs b k app) := by
  cases b <;> cases k <;>
    first
      | rfl
      | (rcases h1 : env.home_dir with _ | x <;>
         rcases h2 : env.cache_dir with _ | y <;>
         rcases h3 : env.config_dir with _ | z <;>
         rcases h4 : env.data_dir with _ | w <;>
         rcases h5 : env.data_local_dir with _ | v <;>
         simp [h1, h2, h3, h4, h5])

/-- Claim C4: the POSIX resolution table — favorites, logs and templates
are fixed literal subdirectories of the per-app data-local (resp. config)
path, preference aliases config, and the application-install and
app-container families are Undefined unconditionally. -/
theorem posix_table (env : Env) (app : String) :
    Nix.favorites_dir_for env app
        = (Nix.data_local_dir_for env app).map (fun p => p ++ ["favorites"])
    ∧ Nix.log_dir_for env app
        = (Nix.data_local_dir_for env app).map (fun p => p ++ ["logs"])
    ∧ Nix.template_dir_for env app
        = (Nix.config_dir_for env app).map (fun p => p ++ ["templates"])
    ∧ Nix.preference_dir env = config_dir .nix env
    ∧ Nix.preference_dir_for env app = Nix.config_dir_for env app
    ∧ Nix.application_dir env = none
    ∧ Nix.application_shared_dir env = none
    ∧ Nix.user_application_dir env = none
    ∧ Nix.app_container_dir_for env app = none
    ∧ Nix.app_container_executable_dir_for env app = none
    ∧ Nix.user_app_container_dir_for env app = none
    ∧ Nix.user_app_container_executable_dir_for env app = none :=
  ⟨rfl, rfl, rfl, rfl, rfl, rfl, rfl, rfl, rfl, rfl, rfl, rfl⟩

/-- Claim C5: the macOS resolution table — fixed `/Applications` install
directory, home-derived user install directory (Undefined iff home is),
app-container paths as `{app}.app` (plus `Contents/MacOS`) under the
respective install directory, generic template Undefined, and the per-app
cache path as the cache base (home/Library/Caches) with the name
appended. -/
theorem macos_table (env : Env) (app : String)
    (hcache : env.cache_dir = env.home_dir.map (fun h => h ++ ["Library/Caches"])) :
    MacOS.application_dir env = some ["/Applications"]
    ∧ MacOS.application_shared_dir env = some ["/Library/Frameworks"]
    ∧ MacOS.user_application_dir env = env.home_dir.map (fun h => h ++ ["Applications"])
    ∧ ((MacOS.user_application_dir env).isNone ↔ env.home_dir.isNone)
    ∧ MacOS.app_container_dir_for env app
        = (MacOS.application_dir env).map (fun p => p ++ [app ++ ".app"])
    ∧ MacOS.app_container_executable_dir_for env app
        = (MacOS.app_container_dir_for env app).map (fun p => p ++ ["Contents/MacOS"])
    ∧ MacOS.user_app_container_dir_for env app
        = (MacOS.user_application_dir env).map (fun p => p ++ [app ++ ".app"])
    ∧ MacOS.user_app_container_executable_dir_for env app
        = (MacOS.user_app_container_dir_for env app).map (fun p => p ++ ["Contents/MacOS"])
    ∧ MacOS.template_dir env = none
    ∧ MacOS.cache_dir_for env app = env.cache_dir.map (fun p => p ++ [app])
    ∧ MacOS.cache_dir_for env app
        = env.home_dir.map (fun h => h ++ ["Library/Caches", app]) := by
  refine ⟨rfl, rfl, rfl, ?_, rfl, rfl, rfl, rfl, rfl, rfl, ?_⟩
  · cases h : env.home_dir <;> simp [h]
  · rw [MacOS.cache_dir_for, hcache]
    cases h : env.home_dir <;> simp [h]

/-- Claim C5 witness: the macOS table instantiated on a concrete
environment with the standard cache base. -/
theorem macos_table_witness :
    MacOS.cache_dir_for envMac "Chrome"
      = envMac.home_dir.map (fun h => h ++ ["Library/Caches", "Chrome"]) :=
  (macos_table envMac "Chrome" rfl).2.2.2.2.2.2.2.2.2.2

/-- Claim C6: the Windows resolution table — the install directories are
exactly the ProgramFiles, ProgramFilesCommon and UserProgramFiles
known-folder lookups, the app-container family is Undefined
unconditionally, and the per-app cache path is the LocalAppData cache base
with the name and then a literal "Cache" segment appended. -/
theorem windows_table (env : Env) (app : String) :
    Windows.application_dir env = env.known_folder .ProgramFiles
    ∧ Windows.application_shared_dir env = env.known_folder .ProgramFilesCommon
    ∧ Windows.user_application_dir env = env.known_folder .UserProgramFiles
    ∧ Windows.app_container_dir_for env app = none
    ∧ Windows.app_container_executable_dir_for env app = none
    ∧ Windows.user_app_container_dir_for env app = none
    ∧ Windows.user_app_container_executable_dir_for env app = none
    ∧ Windows.cache_dir_for env app = env.cache_dir.map (fun p => p ++ [app, "Cache"]) := by
  refine ⟨rfl, rfl, rfl, rfl, rfl, rfl, rfl, ?_⟩
  cases h : env.cache_dir <;> simp [h]

/-- Claim C7: every function is a pure function of the external primitives
and the argument — in any history of calls evaluated against one external
state, two identical calls give identical results, regardless of their
positions or of the calls around them. -/
theorem pure_no_history (b : Backend) (env : Env) (calls : List Call) (i j : Nat)
    (h : calls[i]? = calls[j]?) :
    (runCalls b env calls)[i]? = (runCalls b env calls)[j]? := by
  simp only [runCalls, List.getElem?_map, h]

/-- Claim C7 witness: two successive identical calls return identical
results. -/
theorem pure_no_history_witness :
    (runCalls .nix envNone [Call.cacheDir, Call.cacheDir])[0]?
      = (runCalls .nix envNone [Call.cacheDir, Call.cacheDir])[1]? :=
  pure_no_history .nix envNone [Call.cacheDir, Call.cacheDir] 0 1 rfl

/-- Claim C8: every public facade function is extensionally equal, on each
backend, to the same-named function of that backend, for every environment and
every application name — the facade adds no interpretation, validation or
transformation. -/
theorem facade_delegates (env : Env) (app : String) :
    (application_dir .nix env = Nix.application_dir env)
    ∧ (application_dir .macos env = MacOS.application_dir env)
    ∧ (application_dir .windows env = Windows.application_dir env)
    ∧ (application_shared_dir .nix env = Nix.application_shared_dir env)
    ∧ (application_shared_dir .macos env = MacOS.application_shared_dir env)
    ∧ (application_shared_dir .windows env = Windows.application_shared_dir env)
    ∧ (user_application_dir .nix env = Nix.user_application_dir env)
    ∧ (user_application_dir .macos env = MacOS.user_application_dir env)
    ∧ (user_application_dir .windows env = Windows.user_application_dir env)
    ∧ (app_container_dir_for .nix env app = Nix.app_container_dir_for env app)
    ∧ (app_container_dir_for .macos env app = MacOS.app_container_dir_for env app)
    ∧ (app_container_dir_for .windows env app = Windows.app_container_dir_for env app)
    ∧ (app_container_executable_dir_for .nix env app
        = Nix.app_container_executable_dir_for env app)
    ∧ (app_container_executable_dir_for .macos env app
        = MacOS.app_container_executable_dir_for env app)
    ∧ (app_container_executable_dir_for .windows env app
        = Windows.app_container_executable_dir_for env app)
    ∧ (user_app_container_dir_for .nix env app = Nix.user_app_container_dir_for env app)
    ∧ (user_app_container_dir_for .macos env app = MacOS.user_app_container_dir_for env app)
    ∧ (user_app_container_dir_for .windows env app
        = Windows.user_app_container_dir_for env app)
    ∧ (user_app_container_executable_dir_for .nix env app
        = Nix.user_app_container_executable_dir_for env app)
    ∧ (user_app_container_executable_dir_for .macos env app
        = MacOS.user_app_container_executable_dir_for env app)
    ∧ (user_app_container_executable_dir_for .windows env app
        = Windows.user_app_container_executable_dir_for env app)
    ∧ (cache_dir_for .nix env app = Nix.cache_dir_for env app)
    ∧ (cache_dir_for .macos env app = MacOS.cache_dir_for env app)
    ∧ (cache_dir_for .windows env app = Windows.cache_dir_for env app)
    ∧ (config_dir_for .nix env app = Nix.config_dir_for env app)
    ∧ (config_dir_for .macos env app = MacOS.config_dir_for env app)
    ∧ (config_dir_for .windows env app = Windows.config_dir_for env app)
    ∧ (data_dir_for .nix env app = Nix.data_dir_for env app)
    ∧ (data_dir_for .macos env app = MacOS.data_dir_for env app)
    ∧ (data_dir_for .windows env app = Windows.data_dir_for env app)
    ∧ (data_local_dir_for .nix env app = Nix.data_local_dir_for env app)
    ∧ (data_local_dir_for .macos env app = MacOS.data_local_dir_for env app)
    ∧ (data_local_dir_for .windows env app = Windows.data_local_dir_for env app)
    ∧ (favorites_dir .nix env = Nix.favorites_dir env)
    ∧ (favorites_dir .macos env = MacOS.favorites_dir env)
    ∧ (favorites_dir .windows env = Windows.favorites_dir env)
    ∧ (favorites_dir_for .nix env app = Nix.favorites_dir_for env app)
    ∧ (favorites_dir_for .macos env app = MacOS.favorites_dir_for env app)
    ∧ (favorites_dir_for .windows env app = Windows.favorites_dir_for env app)
    ∧ (log_dir .nix env = Nix.log_dir env)
    ∧ (log_dir .macos env = MacOS.log_dir env)
    ∧ (log_dir .windows env = Windows.log_dir env)
    ∧ (log_dir_for .nix env app = Nix.log_dir_for env app)
    ∧ (log_dir_for .macos env app = MacOS.log_dir_for env app)
    ∧ (log_dir_for .windows env app = Windows.log_dir_for env app)
    ∧ (preference_dir .nix env = Nix.preference_dir env)
    ∧ (preference_dir .macos env = MacOS.preference_dir env)
    ∧ (preference_dir .windows env = Windows.preference_dir env)
    ∧ (preference_dir_for .nix env app = Nix.preference_dir_for env app)
    ∧ (preference_dir_for .macos env app = MacOS.preference_dir_for env app)
    ∧ (preference_dir_for .windows env app = Windows.preference_dir_for env app)
    ∧ (template_dir .nix env = Nix.template_dir env)
    ∧ (template_dir .macos env = MacOS.template_dir env)
    ∧ (template_dir .windows env = Windows.template_dir env)
    ∧ (template_dir_for .nix env app = Nix.template_dir_for env app)
    ∧ (template_dir_for .macos env app = MacOS.template_dir_for env app)
    ∧ (template_dir_for .windows env app = Windows.template_dir_for env app) := by
  and_intros <;> rfl

/-- Claim C9: on macOS the two system install directories are Resolved
constants, independent of every external primitive, and consequently both
system app-container functions are Resolved for every application name and
every environment — including the one where every primitive is
Undefined. -/
theorem macos_install_constant (env env2 : Env) (app : String) :
    MacOS.application_dir env = some ["/Applications"]
    ∧ MacOS.application_shared_dir env = some ["/Library/Frameworks"]
    ∧ MacOS.application_dir env = MacOS.application_dir env2
    ∧ MacOS.application_shared_dir env = MacOS.application_shared_dir env2
    ∧ MacOS.app_container_dir_for env app = some ["/Applications", app ++ ".app"]
    ∧ MacOS.app_container_executable_dir_for env app
        = some ["/Applications", app ++ ".app", "Contents/MacOS"]
    ∧ MacOS.app_container_dir_for env app = MacOS.app_container_dir_for env2 app
    ∧ (MacOS.app_container_dir_for envNone app).isSome = true
    ∧ (MacOS.app_container_executable_dir_for envNone app).isSome = true :=
  ⟨rfl, rfl, rfl, rfl, rfl, rfl, rfl, rfl, rfl⟩

/-- Claim C10: the POSIX per-app template path is a function of the config
base only — two environments agreeing on the config base give the same
per-app template path, whatever their XDG templates directories; and it
can be Resolved while the generic template path is Undefined, or
Undefined while the generic one is Resolved. -/
theorem template_for_ignores_templates_dir (env env2 : Env) (app : String)
    (h : env.config_dir = env2.config_dir) :
    Nix.template_dir_for env app = Nix.template_dir_for env2 app
    ∧ Nix.template_dir_for envCfgOnly "MyApp"
        = some ["/home/alice/.config", "MyApp", "templates"]
    ∧ Nix.template_dir envCfgOnly = none
    ∧ Nix.template_dir_for envTplOnly "MyApp" = none
    ∧ Nix.template_dir envTplOnly = some ["/home/alice/Templates"] := by
  refine ⟨?_, rfl, rfl, rfl, rfl⟩
  simp [h]

/-- Claim C10 witness: two concrete environments agreeing on the config
base but differing on the XDG templates directory give the same per-app
template path. -/
theorem template_for_ignores_templates_dir_witness :
    Nix.template_dir_for envCfgOnly "MyApp" = Nix.template_dir_for envT "MyApp" :=
  (template_for_ignores_templates_dir envCfgOnly envT "MyApp" rfl).1

end Xdirs
